import Mathlib

/-!
Verification of the libsecurejoin (libpathrs-style) core against its
natural-language specification.

The development shallowly embeds the relevant parts of the repository:

* `src/error.rs` — the error model (`ErrorImpl`, `ErrorKind`, kind
  computation, wrap-with-context chains);
* `src/root.rs` — the `Root`/`RootRef` configuration surface and the
  single-trailing-name operations `create`, `create_file`, `remove_dir`,
  `remove_file`, `remove_all`, `rename`, and the `mkdir_all` loop;
* `src/kernel/mod.rs` — the kernel-native resolver and its lazy support
  probe;
* the emulated resolver, whose implementation is not part of this source
  snapshot and is therefore modelled from the specification (section 4.1
  and 4.2 of the spec), with every adversarial degree of freedom (what the
  kernel returns for each lookup, readlink, parent walk, and what the
  kernel-canonical path of each handle is) kept as an unconstrained
  parameter.

Machine integers are embedded as `Nat` with explicit 32-bit masking where
the Rust code operates on `u32` values.
-/

/-! ## Error model, embedded from src/error.rs -/

namespace PathrsError

/-- Embeds `resolvers::opath::SymlinkStackError` (the concrete variants live
outside this source snapshot; only its presence as a source of
`ErrorImpl::BadSymlinkStackError` matters here). -/
structure SymlinkStackErr where
  message : String
deriving DecidableEq, Repr

/-- Embeds `std::io::Error` as consumed by `ErrorImpl::kind`: the only
observation the code makes is `raw_os_error()`. -/
structure IOErr where
  rawOsError : Option Int
deriving DecidableEq, Repr

/-- Embeds `syscalls::Error` as consumed by `ErrorImpl::kind`: the only
observation the code makes is `root_cause().raw_os_error()`. -/
structure SyscallErr where
  rootCauseRawOsError : Option Int
deriving DecidableEq, Repr

/-- Embeds the `ErrorImpl` enum of src/error.rs. The `Wrapped` variant
boxes another `ErrorImpl` together with a context string, exactly like
`ErrorImpl::Wrapped { context, source }`. -/
inductive ErrorImpl where
  | NotImplemented (feature : String)
  | NotSupported (feature : String)
  | InvalidArgument (name : String) (description : String)
  | SafetyViolation (description : String)
  | BadSymlinkStackError (description : String) (source : SymlinkStackErr)
  | OsError (operation : String) (source : IOErr)
  | RawOsError (operation : String) (source : SyscallErr)
  | Wrapped (context : String) (source : ErrorImpl)
deriving DecidableEq, Repr

/-- Embeds the `ErrorKind` enum of src/error.rs. -/
inductive ErrorKind where
  | NotImplemented
  | NotSupported
  | InvalidArgument
  | SafetyViolation
  | BadSymlinkStack
  | OsError (errno : Option Int)
deriving DecidableEq, Repr

/-- Embeds `ErrorImpl::kind` (src/error.rs lines 109-123). -/
def ErrorImpl.kind : ErrorImpl → ErrorKind
  | .NotImplemented _ => .NotImplemented
  | .NotSupported _ => .NotSupported
  | .InvalidArgument _ _ => .InvalidArgument
  | .SafetyViolation _ => .SafetyViolation
  | .BadSymlinkStackError _ _ => .BadSymlinkStack
  | .OsError _ source => .OsError source.rawOsError
  | .RawOsError _ source => .OsError source.rootCauseRawOsError
  | .Wrapped _ source => source.kind

/-- Embeds `ErrorExt::with_wrap` for `ErrorImpl` (src/error.rs lines
140-150): wrapping builds a `Wrapped` node around the error. The closure
argument of the Rust code is already evaluated to its `String` result
here. -/
def ErrorImpl.with_wrap (err : ErrorImpl) (context : String) : ErrorImpl :=
  .Wrapped context err

/-- Iterated wrapping: applies `with_wrap` once per context string, innermost
context first, mirroring repeated use of `ErrorExt::wrap` along a call
chain. -/
def ErrorImpl.wrapAll (err : ErrorImpl) (contexts : List String) : ErrorImpl :=
  contexts.foldl ErrorImpl.with_wrap err

/-- The innermost cause of an error chain: strips every `Wrapped` layer.
This is what walking `Error::iter_chain_hotfix` to its last element
observes. -/
def ErrorImpl.rootCause : ErrorImpl → ErrorImpl
  | .Wrapped _ source => source.rootCause
  | e => e

/-- Recognizer for the broken-symlink-stack variant. -/
def ErrorImpl.isBadSymlinkStackErr : ErrorImpl → Bool
  | .BadSymlinkStackError _ _ => true
  | _ => false

/-- Modelled from the spec: the resolver maps the internal
`BadSymlinkStack` kind to `SafetyViolation` at its public boundary
("Invariant violation leads to BadSymlinkStack (a distinct error kind),
which the resolver maps to SafetyViolation at its boundary"). The resolver
implementation itself is not part of this source snapshot. All other kinds
pass through unchanged. -/
def publicBoundaryKind : ErrorKind → ErrorKind
  | .BadSymlinkStack => .SafetyViolation
  | k => k

theorem kind_rootCause (e : ErrorImpl) : e.kind = e.rootCause.kind := by
  induction e <;> simp_all [ErrorImpl.kind, ErrorImpl.rootCause]

end PathrsError

/-! ## Root and RootRef resolver configuration, embedded from src/root.rs -/

namespace PathrsRoot

/-- Embeds the resolver backend selection (`resolvers::ResolverBackend`;
the spec lists `Emulated | KernelNative | Auto`). -/
inductive ResolverBackend where
  | Auto
  | Emulated
  | KernelNative
deriving DecidableEq, Repr

/-- Embeds `flags::ResolverFlags` (a bitflags value). -/
structure ResolverFlags where
  bits : Nat
deriving DecidableEq, Repr

/-- Embeds `resolvers::Resolver`: backend selection plus flags. -/
structure Resolver where
  backend : ResolverBackend
  flags : ResolverFlags
deriving DecidableEq, Repr

/-- Embeds `Root` (src/root.rs lines 133-143): an owned directory file
descriptor plus its own resolver configuration. File descriptors are
embedded as natural numbers. -/
structure Root where
  inner : Nat
  resolver : Resolver
deriving DecidableEq, Repr

/-- Embeds `RootRef` (src/root.rs lines 511-515): a borrowed file
descriptor plus its own copy of the resolver configuration (`Resolver` is
`Copy` in the Rust code). -/
structure RootRef where
  inner : Nat
  resolver : Resolver
deriving DecidableEq, Repr

/-- Embeds `Root::as_ref` (src/root.rs lines 197-202): borrows the file
descriptor and copies the resolver configuration into the new `RootRef`
value. -/
def Root.as_ref (r : Root) : RootRef :=
  { inner := r.inner, resolver := r.resolver }

/-- Embeds `Root::set_resolver_flags` (src/root.rs lines 216-219). In this
pure embedding, mutation of `self.resolver.flags` becomes production of the
updated `Root` value. -/
def Root.set_resolver_flags (r : Root) (flags : ResolverFlags) : Root :=
  { r with resolver := { r.resolver with flags := flags } }

/-- Embeds `RootRef::set_resolver_flags` (src/root.rs lines 547-550). -/
def RootRef.set_resolver_flags (r : RootRef) (flags : ResolverFlags) : RootRef :=
  { r with resolver := { r.resolver with flags := flags } }

/-- Embeds `Root::with_resolver_flags` (src/root.rs lines 241-244). -/
def Root.with_resolver_flags (r : Root) (flags : ResolverFlags) : Root :=
  r.set_resolver_flags flags

/-- Embeds `RootRef::with_resolver_flags` (src/root.rs lines 609-612). -/
def RootRef.with_resolver_flags (r : RootRef) (flags : ResolverFlags) : RootRef :=
  r.set_resolver_flags flags

/-- A world holding a `Root` and a `RootRef` derived from it.
`RootRef::set_resolver_flags` takes `&mut self` on the `RootRef` alone, so
its effect on the world leaves the `Root` component untouched; this
definition embeds exactly that footprint. -/
def worldSetRefFlags (w : Root × RootRef) (flags : ResolverFlags) : Root × RootRef :=
  (w.1, w.2.set_resolver_flags flags)

/-- `Root::set_resolver_flags` takes `&mut self` on the `Root` alone, so its
effect on a world leaves every previously created `RootRef` untouched. -/
def worldSetRootFlags (w : Root × RootRef) (flags : ResolverFlags) : Root × RootRef :=
  (w.1.set_resolver_flags flags, w.2)

end PathrsRoot


/-! ## Single-trailing-name operations, embedded from src/root.rs

Paths are embedded as their raw component lists (the byte strings between
path separators). A path that ends in a separator has a final empty raw
component, so "a/b/" becomes ["a", "b", ""]. The resolver and the syscall
shim are not part of this source snapshot; they enter as unconstrained
oracle parameters, and every directory-handle-relative syscall the
operations issue is recorded in an event trace. `resolve_parent` is
inlined into each operation: first the path is split, then the parent is
resolved, then the operation acts on the trailing name. -/

namespace PathrsOps

open PathrsError

/-- Embeds `libc::S_IFMT`. -/
def S_IFMT : Nat := 0o170000

/-- Embeds `libc::S_IFREG`. -/
def S_IFREG : Nat := 0o100000

/-- Embeds `libc::S_IFIFO`. -/
def S_IFIFO : Nat := 0o010000

/-- Embeds `libc::S_IFCHR`. -/
def S_IFCHR : Nat := 0o020000

/-- Embeds `libc::S_IFBLK`. -/
def S_IFBLK : Nat := 0o060000

/-- Embeds `libc::AT_REMOVEDIR`. -/
def AT_REMOVEDIR : Nat := 0x200

/-- Embeds `libc::O_CREAT`. -/
def O_CREAT : Nat := 0o100

/-- Bitwise complement on 32-bit values, embedding Rust `!x` on `u32`. -/
def u32Complement (x : Nat) : Nat := 0xFFFFFFFF ^^^ x

/-- Embeds `InodeType` (src/root.rs lines 47-99). Permission values are
their `u32` mode bits; device numbers are `dev_t` values. -/
inductive InodeType where
  | File (perm : Nat)
  | Directory (perm : Nat)
  | Symlink (target : String)
  | Hardlink (target : List String)
  | Fifo (perm : Nat)
  | CharacterDevice (perm : Nat) (dev : Nat)
  | BlockDevice (perm : Nat) (dev : Nat)
deriving DecidableEq, Repr

/-- Embeds `RemoveInodeType` (src/root.rs lines 104-107). -/
inductive RemoveInodeType where
  | Regular
  | Directory
deriving DecidableEq, Repr

/-- Directory-handle-relative events issued by the operations. The `dir`
arguments are resolved parent handles (file descriptors, embedded as
natural numbers); `name` arguments are single slash-free trailing names.
`resolveCall` records an invocation of the resolver on a parent path. -/
inductive Event where
  | resolveCall (parent : List String)
  | mknodat (dir : Nat) (name : String) (mode : Nat) (dev : Nat)
  | mkdirat (dir : Nat) (name : String) (mode : Nat)
  | symlinkat (target : String) (dir : Nat) (name : String)
  | linkat (olddir : Nat) (oldname : String) (dir : Nat) (name : String) (flags : Nat)
  | openat (dir : Nat) (name : String) (flags : Nat) (mode : Nat)
  | unlinkat (dir : Nat) (name : String) (flags : Nat)
  | removeAllTree (dir : Nat) (name : String)
  | renameat2 (srcDir : Nat) (srcName : String) (dstDir : Nat) (dstName : String) (flags : Nat)
deriving DecidableEq, Repr

/-- True for events that are part of path resolution rather than a syscall
on a trailing name. -/
def Event.isResolveCall : Event → Bool
  | .resolveCall _ => true
  | _ => false

/-- Modelled from the spec: `utils::path_split` ("Split a path into
(parent-components, trailing-name)"; the trailing name is a single
slash-free byte string, a path with a trailing separator yields no
trailing name, and an empty path is a caller-side contract violation,
listed under `InvalidArgument` in the spec error table). The utils module
is not part of this source snapshot. -/
def path_split (p : List String) : Except ErrorKind (List String × Option String) :=
  match p.getLast? with
  | none => .error .InvalidArgument
  | some last => .ok (p.dropLast, if last = "" then none else some last)

/-- Result of one syscall as reported by the syscall shim: either unit
success or a raw errno. -/
def SyscallOracle := Event → Except Int Unit

/-- Runs one directory-handle-relative syscall event against the oracle,
mapping a raw error to the `OsError` kind exactly as the
`ErrorImpl::RawOsError` conversion in src/root.rs does. -/
def runSyscall (sys : SyscallOracle) (ev : Event) : Except ErrorKind Unit :=
  match sys ev with
  | .ok () => .ok ()
  | .error errno => .error (.OsError (some errno))

/-- Embeds `RootRef::create` (src/root.rs lines 721-775) with
`resolve_parent` (lines 676-683) inlined: split the path, resolve the
parent, reject a missing (trailing-slash) name with `InvalidArgument`,
then dispatch exactly one creation syscall on the parent handle and
trailing name. Mode arguments reproduce the `perm.mode() & !libc::S_IFMT`
masking of the source. -/
def create (resolve : List String → Except ErrorKind Nat) (sys : SyscallOracle)
    (p : List String) (it : InodeType) : Except ErrorKind Unit × List Event :=
  match path_split p with
  | .error e => (.error e, [])
  | .ok (parent, name?) =>
    match resolve parent with
    | .error e => (.error e, [.resolveCall parent])
    | .ok dir =>
      match name? with
      | none => (.error .InvalidArgument, [.resolveCall parent])
      | some name =>
        match it with
        | .File perm =>
          let ev := Event.mknodat dir name (S_IFREG ||| (perm &&& u32Complement S_IFMT)) 0
          (runSyscall sys ev, [.resolveCall parent, ev])
        | .Directory perm =>
          let ev := Event.mkdirat dir name (perm &&& u32Complement S_IFMT)
          (runSyscall sys ev, [.resolveCall parent, ev])
        | .Symlink target =>
          let ev := Event.symlinkat target dir name
          (runSyscall sys ev, [.resolveCall parent, ev])
        | .Hardlink target =>
          match path_split target with
          | .error e => (.error e, [.resolveCall parent])
          | .ok (oldparent, oldname?) =>
            match resolve oldparent with
            | .error e => (.error e, [.resolveCall parent, .resolveCall oldparent])
            | .ok olddir =>
              match oldname? with
              | none => (.error .InvalidArgument, [.resolveCall parent, .resolveCall oldparent])
              | some oldname =>
                let ev := Event.linkat olddir oldname dir name 0
                (runSyscall sys ev, [.resolveCall parent, .resolveCall oldparent, ev])
        | .Fifo perm =>
          let ev := Event.mknodat dir name (S_IFIFO ||| (perm &&& u32Complement S_IFMT)) 0
          (runSyscall sys ev, [.resolveCall parent, ev])
        | .CharacterDevice perm dev =>
          let ev := Event.mknodat dir name (S_IFCHR ||| (perm &&& u32Complement S_IFMT)) dev
          (runSyscall sys ev, [.resolveCall parent, ev])
        | .BlockDevice perm dev =>
          let ev := Event.mknodat dir name (S_IFBLK ||| (perm &&& u32Complement S_IFMT)) dev
          (runSyscall sys ev, [.resolveCall parent, ev])

/-- Embeds `RootRef::create_file` (src/root.rs lines 803-831) with
`resolve_parent` inlined: split the path, resolve the parent, reject a
trailing slash, then open the trailing name with the caller flags plus
`O_CREAT` and the unmasked `perm.mode()`. -/
def create_file (resolve : List String → Except ErrorKind Nat) (sys : SyscallOracle)
    (p : List String) (flags : Nat) (perm : Nat) : Except ErrorKind Unit × List Event :=
  match path_split p with
  | .error e => (.error e, [])
  | .ok (parent, name?) =>
    match resolve parent with
    | .error e => (.error e, [.resolveCall parent])
    | .ok dir =>
      match name? with
      | none => (.error .InvalidArgument, [.resolveCall parent])
      | some name =>
        let ev := Event.openat dir name (flags ||| O_CREAT) perm
        (runSyscall sys ev, [.resolveCall parent, ev])

/-- Embeds `RootRef::remove_inode` (src/root.rs lines 984-1009) with
`resolve_parent` inlined: split the path, resolve the parent, reject a
trailing slash with `InvalidArgument`, then issue one `unlinkat` with
`AT_REMOVEDIR` only for the directory variant. -/
def remove_inode (resolve : List String → Except ErrorKind Nat) (sys : SyscallOracle)
    (p : List String) (it : RemoveInodeType) : Except ErrorKind Unit × List Event :=
  match path_split p with
  | .error e => (.error e, [])
  | .ok (parent, name?) =>
    match resolve parent with
    | .error e => (.error e, [.resolveCall parent])
    | .ok dir =>
      match name? with
      | none => (.error .InvalidArgument, [.resolveCall parent])
      | some name =>
        let flags := match it with
          | .Regular => 0
          | .Directory => AT_REMOVEDIR
        let ev := Event.unlinkat dir name flags
        (runSyscall sys ev, [.resolveCall parent, ev])

/-- Embeds `RootRef::remove_dir` (src/root.rs lines 1026-1028). -/
def remove_dir (resolve : List String → Except ErrorKind Nat) (sys : SyscallOracle)
    (p : List String) : Except ErrorKind Unit × List Event :=
  remove_inode resolve sys p .Directory

/-- Embeds `RootRef::remove_file` (src/root.rs lines 1046-1048). -/
def remove_file (resolve : List String → Except ErrorKind Nat) (sys : SyscallOracle)
    (p : List String) : Except ErrorKind Unit × List Event :=
  remove_inode resolve sys p .Regular

/-- Embeds `RootRef::remove_all` (src/root.rs lines 1066-1078) with
`resolve_parent` inlined: split the path, resolve the parent, reject a
trailing slash with `InvalidArgument`, then delegate the recursive
deletion of the trailing name to `utils::remove_all` (recorded as one
`removeAllTree` event; that helper is not part of this source
snapshot). -/
def remove_all (resolve : List String → Except ErrorKind Nat) (sys : SyscallOracle)
    (p : List String) : Except ErrorKind Unit × List Event :=
  match path_split p with
  | .error e => (.error e, [])
  | .ok (parent, name?) =>
    match resolve parent with
    | .error e => (.error e, [.resolveCall parent])
    | .ok dir =>
      match name? with
      | none => (.error .InvalidArgument, [.resolveCall parent])
      | some name =>
        let ev := Event.removeAllTree dir name
        (runSyscall sys ev, [.resolveCall parent, ev])

/-- Embeds `RootRef::rename` (src/root.rs lines 1090-1121) with
`resolve_parent` inlined: split and resolve the source parent, reject a
source trailing slash, split and resolve the destination parent, reject a
destination trailing slash, then issue a single `renameat2` with the
caller-supplied flags. -/
def rename (resolve : List String → Except ErrorKind Nat) (sys : SyscallOracle)
    (source : List String) (destination : List String) (rflags : Nat) :
    Except ErrorKind Unit × List Event :=
  match path_split source with
  | .error e => (.error e, [])
  | .ok (srcParent, srcName?) =>
    match resolve srcParent with
    | .error e => (.error e, [.resolveCall srcParent])
    | .ok srcDir =>
      match srcName? with
      | none => (.error .InvalidArgument, [.resolveCall srcParent])
      | some srcName =>
        match path_split destination with
        | .error e => (.error e, [.resolveCall srcParent])
        | .ok (dstParent, dstName?) =>
          match resolve dstParent with
          | .error e => (.error e, [.resolveCall srcParent, .resolveCall dstParent])
          | .ok dstDir =>
            match dstName? with
            | none =>
              (.error .InvalidArgument, [.resolveCall srcParent, .resolveCall dstParent])
            | some dstName =>
              let ev := Event.renameat2 srcDir srcName dstDir dstName rflags
              (runSyscall sys ev, [.resolveCall srcParent, .resolveCall dstParent, ev])

end PathrsOps

/-! ## mkdir_all, embedded from src/root.rs lines 862-967

The partial-resolution step of the resolver is external to this source
snapshot and enters as an oracle returning the deepest resolved handle and
the remaining raw components. The creation loop itself operates on a
concrete in-memory directory tree, with handles embedded as the path of
the directory they refer to, and records every `mkdirat` and every
nofollow re-resolution in a trace. -/

namespace PathrsMkdirAll

open PathrsError

/-- Embeds `libc::ENOENT`. -/
def eNOENT : Int := 2

/-- Embeds `libc::ENOTDIR`. -/
def eNOTDIR : Int := 20

/-- Embeds `libc::EEXIST`. -/
def eEXIST : Int := 17

/-- A static filesystem tree: regular files, symlinks (with their raw
target string), and directories with named children. -/
inductive FsTree where
  | file
  | symlink (target : String)
  | dir (children : List (String × FsTree))

/-- Finds the child of the given name in a directory child list. -/
def childNamed (children : List (String × FsTree)) (name : String) : Option FsTree :=
  match children with
  | [] => none
  | (n, t) :: rest => if n = name then some t else childNamed rest name

/-- Follows a path of names down the tree without following symlinks. -/
def lookupPath : FsTree → List String → Option FsTree
  | t, [] => some t
  | .dir cs, n :: rest =>
    match childNamed cs n with
    | some t => lookupPath t rest
    | none => none
  | _, _ :: _ => none

/-- Replaces the child of the given name in a directory child list. -/
def updateChild (children : List (String × FsTree)) (name : String) (t : FsTree) :
    List (String × FsTree) :=
  children.map fun c => if c.1 = name then (c.1, t) else c

/-- Embeds the effect of `mkdirat(dirfd, name, mode)` on the tree: `dirfd`
is the path of the directory handle; the new directory is created as its
child unless an entry of that name already exists (`EEXIST`) or the handle
path no longer leads to a directory. Modes are not stored in the tree (the
trace records them). -/
def mkdiratFs : FsTree → List String → String → Except Int FsTree
  | .dir cs, [], name =>
    match childNamed cs name with
    | some _ => .error eEXIST
    | none => .ok (.dir (cs ++ [(name, .dir [])]))
  | .dir cs, n :: rest, name =>
    match childNamed cs n with
    | some t =>
      match mkdiratFs t rest name with
      | .ok t2 => .ok (.dir (updateChild cs n t2))
      | .error e => .error e
    | none => .error eNOENT
  | .file, _, _ => .error eNOTDIR
  | .symlink _, _, _ => .error eNOTDIR

/-- Trace entries of the mkdir_all loop: the `mkdirat` issued for each
missing component and the safe nofollow re-resolution of the component
just created. -/
inductive Syscall where
  | mkdirat (dir : List String) (name : String) (mode : Nat)
  | resolveNofollow (dir : List String) (name : String)
deriving DecidableEq, Repr

/-- Outcome of `mkdir_all`: the operation result (the handle is the path
of the deepest directory), the final tree, and the syscall trace. -/
structure MkdirAllOutcome where
  result : Except ErrorKind (List String)
  fs : FsTree
  trace : List Syscall

/-- Embeds the filter in src/root.rs lines 895-901: empty and "."
components of the yet-to-be-created suffix are skipped as no-ops. -/
def remainingParts (remaining : List String) : List String :=
  remaining.filter fun part => part != "" && part != "."

/-- Embeds the creation loop of src/root.rs lines 921-964: for each
remaining component, issue `mkdirat` on the current handle, then safely
re-resolve the just-created name with nofollow and reopen it with
`O_DIRECTORY`, which becomes the current handle of the next step. -/
def mkdirAllLoop (mode : Nat) : FsTree → List String → List String → List Syscall →
    MkdirAllOutcome
  | fs, current, [], tr => ⟨.ok current, fs, tr⟩
  | fs, current, part :: rest, tr =>
    match mkdiratFs fs current part with
    | .error errno => ⟨.error (.OsError (some errno)), fs, tr ++ [.mkdirat current part mode]⟩
    | .ok fs2 =>
      match lookupPath fs2 (current ++ [part]) with
      | some (.dir _) =>
        mkdirAllLoop mode fs2 (current ++ [part]) rest
          (tr ++ [.mkdirat current part mode, .resolveNofollow current part])
      | some _ =>
        ⟨.error (.OsError (some eNOTDIR)), fs2,
          tr ++ [.mkdirat current part mode, .resolveNofollow current part]⟩
      | none =>
        ⟨.error (.OsError (some eNOENT)), fs2,
          tr ++ [.mkdirat current part mode, .resolveNofollow current part]⟩

/-- Embeds src/root.rs lines 882-967 from the point where partial
resolution has produced a handle and the remaining raw components: reopen
the handle with `O_DIRECTORY`, drop empty and "." components, reject any
".." among them with `ENOENT` before any `mkdirat` is issued, then run the
creation loop. -/
def mkdirAllAfterResolve (fs : FsTree) (handle : List String) (remaining : List String)
    (mode : Nat) : MkdirAllOutcome :=
  match lookupPath fs handle with
  | some (.dir _) =>
    let parts := remainingParts remaining
    if parts.any fun part => part == ".." then
      ⟨.error (.OsError (some eNOENT)), fs, []⟩
    else
      mkdirAllLoop mode fs handle parts []
  | some _ => ⟨.error (.OsError (some eNOTDIR)), fs, []⟩
  | none => ⟨.error (.OsError (some eNOENT)), fs, []⟩

/-- Embeds `RootRef::mkdir_all` (src/root.rs lines 862-967). The two mode
checks are performed before anything else; only then is the partial
resolver (an oracle here) consulted. -/
def mkdir_all (fs : FsTree)
    (resolvePartialFn : FsTree → Except ErrorKind (List String × List String))
    (mode : Nat) : MkdirAllOutcome :=
  if mode &&& PathrsOps.u32Complement 0o7777 ≠ 0 then
    ⟨.error .InvalidArgument, fs, []⟩
  else if mode &&& PathrsOps.u32Complement 0o1777 ≠ 0 then
    ⟨.error .InvalidArgument, fs, []⟩
  else
    match resolvePartialFn fs with
    | .error e => ⟨.error e, fs, []⟩
    | .ok (handle, remaining) => mkdirAllAfterResolve fs handle remaining mode

/-- The trace the creation loop produces on a fully successful run:
for each part in order, a `mkdirat` under the then-current directory
followed by the nofollow re-resolution of that part. -/
def expectedTrace (mode : Nat) : List String → List String → List Syscall
  | _, [] => []
  | current, part :: rest =>
    .mkdirat current part mode :: .resolveNofollow current part ::
      expectedTrace mode (current ++ [part]) rest

end PathrsMkdirAll

/-! ## Kernel-native resolver, embedded from src/kernel/mod.rs

This module of the source predates the error model of src/error.rs: it
reports failures through `failure::Error` values, which carry a message
chain but no `ErrorKind`. The kernel itself enters as an oracle giving the
outcome of each `openat2` invocation. -/

namespace PathrsKernel

open PathrsError

/-- Embeds `libc::AT_FDCWD`. -/
def AT_FDCWD : Int := -100

/-- Embeds `libc::O_PATH`. -/
def O_PATH : Nat := 0o10000000

/-- Embeds `syscalls::unstable::RESOLVE_IN_ROOT`. -/
def RESOLVE_IN_ROOT : Nat := 0x10

/-- Embeds `syscalls::unstable::OpenHow` as used here: open flags and
resolve flags. -/
structure OpenHow where
  flags : Nat
  resolve : Nat
deriving DecidableEq, Repr

/-- Embeds `OpenHow::new()`: all fields zeroed. -/
def OpenHow.new : OpenHow := ⟨0, 0⟩

/-- The kernel as an oracle: the outcome of `openat2(dirfd, path, how)`,
either a new file descriptor or an errno. -/
structure KernelIface where
  openat2 : Int → String → OpenHow → Except Int Nat

/-- Embeds a `failure::Error` as produced by `bail!` and `.context(...)`:
a head message with no structured kind. -/
structure FailureError where
  msg : String
deriving DecidableEq, Repr

/-- A `failure::Error` carries no `ErrorKind`: the `ErrorKind` enum lives
in src/error.rs and no value of it is ever attached to the
`failure::Error` values produced in src/kernel/mod.rs. -/
def FailureError.kindOf : FailureError → Option ErrorKind := fun _ => none

/-- Embeds the body of the `IS_SUPPORTED` lazy static (src/kernel/mod.rs
lines 29-34): probe by invoking `openat2` on "." relative to `AT_FDCWD`
with a zeroed `OpenHow` and observe success. -/
def probeSupported (k : KernelIface) : Bool :=
  (k.openat2 AT_FDCWD "." OpenHow.new).isOk

/-- Embeds the `lazy_static` evaluation discipline of `IS_SUPPORTED`: the
cell is `none` until first forced; forcing an empty cell runs the probe
once and caches the result; forcing a filled cell reads the cache and runs
no probe. The third component counts the probes performed by this
forcing. -/
def forceIsSupported (k : KernelIface) : Option Bool → Bool × Option Bool × Nat
  | some b => (b, some b, 0)
  | none => (probeSupported k, some (probeSupported k), 1)

/-- Trace of syscalls the kernel resolver issues during `resolve`. -/
inductive KEvent where
  | openat2 (dirfd : Int) (path : String) (how : OpenHow)
deriving DecidableEq, Repr

/-- Embeds `kernel::resolve` (src/kernel/mod.rs lines 37-49): if the
cached support flag is false, bail with a message-only error before any
syscall; otherwise perform one `openat2` on the root descriptor with
`O_PATH` and `RESOLVE_IN_ROOT`. A syscall failure is wrapped with the
"open sub-path" context. -/
def kernelResolve (k : KernelIface) (isSupported : Bool) (rootFd : Int) (path : String) :
    Except FailureError Nat × List KEvent :=
  if isSupported then
    let how : OpenHow := { flags := O_PATH, resolve := RESOLVE_IN_ROOT }
    match k.openat2 rootFd path how with
    | .ok fd => (.ok fd, [.openat2 rootFd path how])
    | .error _ => (.error ⟨"open sub-path"⟩, [.openat2 rootFd path how])
  else
    (.error ⟨"kernel resolution is not supported on this kernel"⟩, [])

end PathrsKernel

/-! ## Emulated resolver, modelled from the spec (sections 4.1 and 4.2)

The emulated resolver implementation is not part of this source snapshot;
this model follows the walk algorithm of spec section 4.1 and the symlink
stack of section 4.2. The kernel enters as a family of unconstrained
functions, so that concurrent adversarial mutation is covered: nothing
relates what `lookup` returns to what `canon` (the kernel-canonical path
read back from /proc/self/fd) reports, and the containment re-check is the
only line of defense, exactly as in the spec. Handles are abstract natural
numbers. -/

namespace PathrsEmulated

open PathrsError

/-- Embeds `libc::ELOOP`. -/
def eLOOP : Int := 40

/-- Embeds `libc::ENOENT`. -/
def eNOENT : Int := 2

/-- Embeds `libc::ENOTDIR`. -/
def eNOTDIR : Int := 20

/-- Modelled from the spec: the symlink-expansion budget ("the total
number of frames never exceeds a symlink-expansion budget (typical:
40)"). -/
def maxSymlinkTraversals : Nat := 40

/-- Modelled from the spec: the path-length budget on the combined byte
length of all expanded targets. -/
def maxSymlinkBytes : Nat := 4096

/-- Inode classification as observed through `fstatat` without following
symlinks. -/
inductive FileKind where
  | directory
  | symlink
  | other
deriving DecidableEq, Repr

/-- Modelled from the spec: the kernel interface the emulated walker
consumes. Every function is adversarial (unconstrained): `lookup` is the
component open relative to a directory handle, `kindOf` the `fstatat`
classification, `readlink` gives a symlink target as (is-absolute,
components), `parentOf` is the open of ".." relative to a handle, and
`canon` is the kernel-canonical path of a handle as read back through
/proc/self/fd at the moment of the check. -/
structure Kernel where
  lookup : Nat → String → Option Nat
  kindOf : Nat → FileKind
  readlink : Nat → Option (Bool × List String)
  parentOf : Nat → Option Nat
  canon : Nat → List String

/-- Modelled from the spec: a symlink stack frame records the originating
symlink name, the remaining suffix at push time (so that reaching it again
marks the expansion as fully consumed), and the number of
directory-advances the expansion has contributed. -/
structure Frame where
  name : String
  marker : List String
  consumed : Nat
deriving DecidableEq, Repr

/-- The per-step containment re-check of spec section 4.1: the
kernel-canonical path of the newly obtained handle must have the
kernel-canonical path of the root as a prefix. -/
def checkContained (K : Kernel) (root h : Nat) : Bool :=
  (K.canon root).isPrefixOf (K.canon h)

/-- On a directory advance, the currently expanding frame (top of stack)
has contributed one more directory step. -/
def bumpConsumed : List Frame → List Frame
  | [] => []
  | f :: rest => { f with consumed := f.consumed + 1 } :: rest

/-- Total byte length of a symlink target, for the path-length budget. -/
def targetBytes (target : List String) : Nat :=
  (target.map String.length).sum

/-- Whether the top stack frame's expansion is fully consumed (the walker
is back at the suffix recorded when the frame was pushed). -/
def popReady (stack : List Frame) (remaining : List String) : Bool :=
  match stack with
  | [] => false
  | f :: _ => remaining == f.marker

/-- Modelled from the spec: the component-by-component walk of section
4.1. `fuel` bounds the number of loop iterations (exhaustion reports
`ELOOP` like the expansion budgets). The walker terminates successfully
only with `remaining` empty and the stack empty; empty and "." components
are no-ops; ".." pops through active symlink frames or advances to the
physical parent; every newly obtained handle that the walk keeps (a
directory advance, a ".." advance, or the final component) must pass the
containment re-check, otherwise the walk stops with `SafetyViolation`. An
empty `remaining` with a frame whose expansion was never completed is a
broken stack invariant and reports `BadSymlinkStack`. -/
def resolveLoop (K : Kernel) (noSymlinks : Bool) (root : Nat) (nofollow : Bool) :
    Nat → Nat → List String → List Frame → Nat → Nat → Except ErrorKind Nat
  | 0, _, _, _, _, _ => .error (.OsError (some eLOOP))
  | fuel + 1, cur, remaining, stack, nlinks, nbytes =>
    if popReady stack remaining then
      resolveLoop K noSymlinks root nofollow fuel cur remaining stack.tail nlinks nbytes
    else
      match remaining with
      | [] =>
        match stack with
        | [] => .ok cur
        | _ :: _ => .error .BadSymlinkStack
      | c :: cs =>
        if c = "" ∨ c = "." then
          resolveLoop K noSymlinks root nofollow fuel cur cs stack nlinks nbytes
        else if c = ".." then
          match stack with
          | f :: rest =>
            if f.consumed > 0 then
              match K.parentOf cur with
              | none => .error (.OsError (some eNOENT))
              | some p =>
                if checkContained K root p then
                  resolveLoop K noSymlinks root nofollow fuel p cs
                    ({ f with consumed := f.consumed - 1 } :: rest) nlinks nbytes
                else .error .SafetyViolation
            else
              resolveLoop K noSymlinks root nofollow fuel cur cs rest nlinks nbytes
          | [] =>
            if cur = root then
              resolveLoop K noSymlinks root nofollow fuel cur cs [] nlinks nbytes
            else
              match K.parentOf cur with
              | none => .error (.OsError (some eNOENT))
              | some p =>
                if checkContained K root p then
                  resolveLoop K noSymlinks root nofollow fuel p cs [] nlinks nbytes
                else .error .SafetyViolation
        else
          match K.lookup cur c with
          | none => .error (.OsError (some eNOENT))
          | some h =>
            match K.kindOf h with
            | .directory =>
              if checkContained K root h then
                resolveLoop K noSymlinks root nofollow fuel h cs (bumpConsumed stack)
                  nlinks nbytes
              else .error .SafetyViolation
            | .symlink =>
              if noSymlinks then .error (.OsError (some eLOOP))
              else if nofollow ∧ cs = [] ∧ stack = [] then
                if checkContained K root h then .ok h else .error .SafetyViolation
              else if nlinks + 1 > maxSymlinkTraversals then .error (.OsError (some eLOOP))
              else
                match K.readlink h with
                | none => .error (.OsError (some eNOENT))
                | some (isAbs, target) =>
                  if nbytes + targetBytes target > maxSymlinkBytes then
                    .error (.OsError (some eLOOP))
                  else
                    resolveLoop K noSymlinks root nofollow fuel
                      (if isAbs then root else cur) (target ++ cs)
                      (⟨c, cs, 0⟩ :: stack) (nlinks + 1) (nbytes + targetBytes target)
            | .other =>
              if cs = [] then
                if checkContained K root h then .ok h else .error .SafetyViolation
              else .error (.OsError (some eNOTDIR))

/-- Modelled from the spec: `resolve(root_view, path, nofollow_trailing)`.
The walk starts at (a duplicate of) the root handle with the full raw
component sequence (an absolute input is anchored at the root, so its
leading separator contributes nothing beyond this starting point), and the
internal `BadSymlinkStack` kind is mapped to `SafetyViolation` at this
boundary. The fuel over-approximates every budget the walk enforces. -/
def emulatedResolve (K : Kernel) (noSymlinks : Bool) (root : Nat) (path : List String)
    (nofollow : Bool) : Except ErrorKind Nat :=
  match resolveLoop K noSymlinks root nofollow
      (maxSymlinkBytes + maxSymlinkTraversals + 2 * path.length + 2)
      root path [] 0 0 with
  | .error .BadSymlinkStack => .error .SafetyViolation
  | r => r

end PathrsEmulated

/-! ## Theorems for the claims -/

section Claims

open PathrsError PathrsRoot PathrsOps PathrsMkdirAll PathrsKernel PathrsEmulated

/-- C10: wrapping an error with a context string produces a `Wrapped` node
whose observable kind equals the kind of the wrapped error, and iterating
any number of context wrappings never changes the observable kind. -/
theorem with_wrap_preserves_kind (e : ErrorImpl) (c : String) (contexts : List String) :
    (e.with_wrap c).kind = e.kind ∧ (e.wrapAll contexts).kind = e.kind := by
  refine ⟨rfl, ?_⟩
  induction contexts generalizing e with
  | nil => rfl
  | cons c2 rest ih =>
    have h1 : e.wrapAll (c2 :: rest) = (e.with_wrap c2).wrapAll rest := rfl
    rw [h1, ih (e.with_wrap c2)]
    rfl

/-- C2: an error whose innermost cause is a broken symlink-stack invariant
has the internal kind `BadSymlinkStack` (so it stays distinguishable in
internal diagnostics), and the kind observable at the public resolver
boundary is `SafetyViolation`. -/
theorem bad_symlink_stack_is_safety_violation_at_boundary (e : ErrorImpl)
    (h : e.rootCause.isBadSymlinkStackErr = true) :
    e.kind = ErrorKind.BadSymlinkStack ∧
    publicBoundaryKind e.kind = ErrorKind.SafetyViolation := by
  have hk : e.kind = e.rootCause.kind := PathrsError.kind_rootCause e
  have hbad : e.rootCause.kind = ErrorKind.BadSymlinkStack := by
    cases hrc : e.rootCause <;>
      simp_all [ErrorImpl.isBadSymlinkStackErr, ErrorImpl.kind]
  have : e.kind = ErrorKind.BadSymlinkStack := hk.trans hbad
  exact ⟨this, by rw [this]; rfl⟩

/-- Witness for C2 at a concrete error: a `BadSymlinkStackError` wrapped
twice with context strings. -/
theorem bad_symlink_stack_is_safety_violation_at_boundary_witness :
    (ErrorImpl.Wrapped "resolve subpath"
      (ErrorImpl.Wrapped "walk component"
        (ErrorImpl.BadSymlinkStackError "stack empty" ⟨"pop"⟩))).kind =
      ErrorKind.BadSymlinkStack ∧
    publicBoundaryKind
      (ErrorImpl.Wrapped "resolve subpath"
        (ErrorImpl.Wrapped "walk component"
          (ErrorImpl.BadSymlinkStackError "stack empty" ⟨"pop"⟩))).kind =
      ErrorKind.SafetyViolation :=
  bad_symlink_stack_is_safety_violation_at_boundary
    (ErrorImpl.Wrapped "resolve subpath"
      (ErrorImpl.Wrapped "walk component"
        (ErrorImpl.BadSymlinkStackError "stack empty" ⟨"pop"⟩)))
    (by rfl)

/-- C8: a `RootRef` obtained through `Root::as_ref` starts with a copy of
the originating `Root` configuration; setting resolver flags on the
`RootRef` rewrites only the `RootRef` component of the world and leaves
the `Root` untouched, and setting resolver flags on the `Root` leaves a
previously created `RootRef` untouched. -/
theorem resolver_config_is_independent (r : Root) (f : ResolverFlags) :
    (r.as_ref).resolver = r.resolver ∧
    worldSetRefFlags (r, r.as_ref) f =
      (r, { inner := r.inner, resolver := { r.resolver with flags := f } }) ∧
    worldSetRootFlags (r, r.as_ref) f =
      ({ r with resolver := { r.resolver with flags := f } }, r.as_ref) ∧
    (r.with_resolver_flags f).as_ref =
      (r.as_ref).with_resolver_flags f := by
  exact ⟨rfl, rfl, rfl, rfl⟩

end Claims

section Claims2

open PathrsError PathrsRoot PathrsOps PathrsMkdirAll PathrsKernel PathrsEmulated

/-- Helper: a mode within 0o7777 is unchanged by the `& !S_IFMT` masking
that `RootRef::create` applies for directories. -/
theorem and_u32Complement_S_IFMT_of_le (m : Nat) (hm : m ≤ 0o7777) :
    m &&& u32Complement S_IFMT = m := by
  apply Nat.eq_of_testBit_eq
  intro i
  rw [Nat.testBit_and]
  rcases lt_or_ge i 12 with hi | hi
  · have hmask : (u32Complement S_IFMT).testBit i = true := by
      interval_cases i <;> decide
    rw [hmask, Bool.and_true]
  · have hbit : m.testBit i = false :=
      Nat.testBit_eq_false_of_lt
        (lt_of_le_of_lt hm (lt_of_lt_of_le (by norm_num) (Nat.pow_le_pow_right (by norm_num) hi)))
    have hbit2 : (m &&& u32Complement S_IFMT).testBit i = false := by
      rw [Nat.testBit_and, hbit, Bool.false_and]
    rw [Nat.testBit_and] at hbit2
    rw [hbit2, hbit]

/-- C3 (amended): creating a directory passes to `mkdirat` the permission
mode with the file-type bits (`S_IFMT`, 0o170000) cleared — not the mode
masked to 0o1777: every bit within 0o7777, including set-uid and set-gid,
passes through unchanged. -/
theorem create_directory_mkdirat_mode
    (resolve : List String → Except ErrorKind Nat) (sys : SyscallOracle)
    (p parent : List String) (name : String) (dir perm : Nat)
    (hsplit : path_split p = .ok (parent, some name))
    (hres : resolve parent = .ok dir) :
    (create resolve sys p (.Directory perm)).2 =
      [.resolveCall parent, .mkdirat dir name (perm &&& u32Complement S_IFMT)] ∧
    (perm ≤ 0o7777 → perm &&& u32Complement S_IFMT = perm) := by
  constructor
  · unfold create
    rw [hsplit]
    simp only [hres]
  · exact and_u32Complement_S_IFMT_of_le perm

/-- Witness for C3 (amended) at mode 0o2755 (set-gid plus rwxr-xr-x). -/
theorem create_directory_mkdirat_mode_witness :
    (create (fun _ => .ok 3) (fun _ => .ok ()) ["d"] (.Directory 0o2755)).2 =
      [.resolveCall [], .mkdirat 3 "d" (0o2755 &&& u32Complement S_IFMT)] ∧
    (0o2755 ≤ 0o7777 → 0o2755 &&& u32Complement S_IFMT = 0o2755) :=
  create_directory_mkdirat_mode (fun _ => .ok 3) (fun _ => .ok ()) ["d"] [] "d" 3 0o2755
    (by rfl) (by rfl)

/-- C3 counterexample: creating a directory with mode 0o2777 issues
`mkdirat` with mode 0o2777 itself — the set-gid bit is passed through —
whereas the mode masked to 0o1777 would be 0o777. The claim that the mode
is masked to 0o1777 is therefore false on the code. -/
theorem create_directory_mkdirat_mode_cex :
    (create (fun _ => .ok 3) (fun _ => .ok ()) ["d"] (.Directory 0o2777)).2 =
      [.resolveCall [], .mkdirat 3 "d" 0o2777] ∧
    (0o2777 : Nat) &&& 0o1777 ≠ 0o2777 := by
  constructor
  · rfl
  · decide

/-- C4: a `mkdir_all` mode containing any bit outside 0o1777 (set-uid,
set-gid, or any higher reserved bit) is rejected with `InvalidArgument`
before the partial resolver is ever consulted and before any `mkdirat`: no
trace is produced and the filesystem value is returned unchanged, for
every possible resolver oracle. -/
theorem mkdir_all_rejects_reserved_mode_bits (fs : FsTree)
    (rp : FsTree → Except ErrorKind (List String × List String)) (mode : Nat)
    (hbit : mode &&& u32Complement 0o1777 ≠ 0) :
    mkdir_all fs rp mode = ⟨.error .InvalidArgument, fs, []⟩ := by
  unfold mkdir_all
  repeat' split
  all_goals first | rfl | exact absurd hbit ‹_›

/-- Witness for C4 at the set-gid mode 0o2755 on a concrete tree. -/
theorem mkdir_all_rejects_reserved_mode_bits_witness :
    mkdir_all (.dir [("a", .dir [])]) (fun _ => .ok ([], ["b"])) 0o2755 =
      ⟨.error .InvalidArgument, .dir [("a", .dir [])], []⟩ :=
  mkdir_all_rejects_reserved_mode_bits (.dir [("a", .dir [])]) (fun _ => .ok ([], ["b"]))
    0o2755 (by decide)

/-- C9 (amended): kernel-native support is probed lazily and exactly once,
the probe being one `openat2` of "." relative to `AT_FDCWD` with a zeroed
`OpenHow`; on a kernel where that probe fails, every call to the kernel
resolver returns a message-only failure error (it carries no `ErrorKind`)
without attempting the resolution `openat2`. -/
theorem kernel_resolver_lazy_probe_and_refusal (k : KernelIface) (b : Bool)
    (rootFd : Int) (path : String)
    (hfail : probeSupported k = false) :
    (forceIsSupported k none).2.2 = 1 ∧
    forceIsSupported k (some b) = (b, some b, 0) ∧
    (forceIsSupported k none).1 = false ∧
    kernelResolve k false rootFd path =
      (.error ⟨"kernel resolution is not supported on this kernel"⟩, []) := by
  refine ⟨rfl, rfl, ?_, rfl⟩
  simp [forceIsSupported, hfail]

/-- Witness for C9 (amended) on a kernel whose `openat2` always fails with
`ENOSYS`. -/
theorem kernel_resolver_lazy_probe_and_refusal_witness :
    (forceIsSupported ⟨fun _ _ _ => .error 38⟩ none).2.2 = 1 ∧
    forceIsSupported ⟨fun _ _ _ => .error 38⟩ (some true) = (true, some true, 0) ∧
    (forceIsSupported ⟨fun _ _ _ => .error 38⟩ none).1 = false ∧
    kernelResolve ⟨fun _ _ _ => .error 38⟩ false 3 "etc/motd" =
      (.error ⟨"kernel resolution is not supported on this kernel"⟩, []) :=
  kernel_resolver_lazy_probe_and_refusal ⟨fun _ _ _ => .error 38⟩ true 3 "etc/motd" (by rfl)

/-- C9 counterexample: on a kernel where the probe fails, the resolver
refuses with the message-only failure error of src/kernel/mod.rs; that
error value carries no `ErrorKind` at all — in particular its kind is not
`NotSupported`, refuting the claim that the returned error is of the
`NotSupported` kind. -/
theorem kernel_resolver_error_has_no_kind_cex :
    (forceIsSupported ⟨fun _ _ _ => .error 38⟩ none).1 = false ∧
    (kernelResolve ⟨fun _ _ _ => .error 38⟩ false 3 "etc/motd").1 =
      .error ⟨"kernel resolution is not supported on this kernel"⟩ ∧
    FailureError.kindOf ⟨"kernel resolution is not supported on this kernel"⟩ ≠
      some ErrorKind.NotSupported := by
  refine ⟨rfl, rfl, ?_⟩
  simp [FailureError.kindOf]

end Claims2

section Claims3

open PathrsError PathrsRoot PathrsOps PathrsMkdirAll PathrsKernel PathrsEmulated

/-- C6: for source and destination paths with slash-free trailing names,
`rename` resolves the two parent directories independently (one resolver
invocation per parent path) and then issues exactly one `renameat2` on the
two (parent handle, trailing name) pairs with exactly the caller-supplied
flags — this is the complete event trace of the operation. -/
theorem rename_two_resolutions_one_renameat2
    (resolve : List String → Except ErrorKind Nat) (sys : SyscallOracle)
    (src dst srcParent dstParent : List String) (srcName dstName : String)
    (srcDir dstDir rflags : Nat)
    (hsplitSrc : path_split src = .ok (srcParent, some srcName))
    (hsplitDst : path_split dst = .ok (dstParent, some dstName))
    (hresSrc : resolve srcParent = .ok srcDir)
    (hresDst : resolve dstParent = .ok dstDir) :
    (rename resolve sys src dst rflags).2 =
      [.resolveCall srcParent, .resolveCall dstParent,
       .renameat2 srcDir srcName dstDir dstName rflags] := by
  unfold rename
  rw [hsplitSrc, hsplitDst]
  simp only [hresSrc, hresDst]

/-- Witness for C6 on concrete paths "a/from" and "b/to" with flag
`RENAME_EXCHANGE` (2). -/
theorem rename_two_resolutions_one_renameat2_witness :
    (rename (fun p => .ok p.length) (fun _ => .ok ()) ["a", "from"] ["b", "to"] 2).2 =
      [.resolveCall ["a"], .resolveCall ["b"], .renameat2 1 "from" 1 "to" 2] :=
  rename_two_resolutions_one_renameat2 (fun p => .ok p.length) (fun _ => .ok ())
    ["a", "from"] ["b", "to"] ["a"] ["b"] "from" "to" 1 1 2
    (by rfl) (by rfl) (by rfl) (by rfl)

/-- C7: a path whose trailing component is empty because it ends in a
separator is rejected with `InvalidArgument` by every single-name
operation — `create` (any inode type), `create_file`, `remove_dir`,
`remove_file`, `remove_all`, and `rename` on either argument — and the
event trace contains only resolver invocations: no syscall is performed on
the trailing name. -/
theorem trailing_slash_rejected_with_invalid_argument
    (resolve : List String → Except ErrorKind Nat) (sys : SyscallOracle)
    (p parent q qParent : List String) (qName : String) (d dq : Nat)
    (it : InodeType) (cflags cperm rflags : Nat)
    (hsplit : path_split p = .ok (parent, none))
    (hres : resolve parent = .ok d)
    (hsplitQ : path_split q = .ok (qParent, some qName))
    (hresQ : resolve qParent = .ok dq) :
    create resolve sys p it = (.error .InvalidArgument, [.resolveCall parent]) ∧
    create_file resolve sys p cflags cperm =
      (.error .InvalidArgument, [.resolveCall parent]) ∧
    remove_dir resolve sys p = (.error .InvalidArgument, [.resolveCall parent]) ∧
    remove_file resolve sys p = (.error .InvalidArgument, [.resolveCall parent]) ∧
    remove_all resolve sys p = (.error .InvalidArgument, [.resolveCall parent]) ∧
    rename resolve sys p q rflags = (.error .InvalidArgument, [.resolveCall parent]) ∧
    rename resolve sys q p rflags =
      (.error .InvalidArgument, [.resolveCall qParent, .resolveCall parent]) ∧
    ([Event.resolveCall parent, Event.resolveCall qParent].all Event.isResolveCall) = true := by
  refine ⟨?_, ?_, ?_, ?_, ?_, ?_, ?_, rfl⟩
  · unfold create
    rw [hsplit]
    simp only [hres]
  · unfold create_file
    rw [hsplit]
    simp only [hres]
  · unfold remove_dir remove_inode
    rw [hsplit]
    simp only [hres]
  · unfold remove_file remove_inode
    rw [hsplit]
    simp only [hres]
  · unfold remove_all
    rw [hsplit]
    simp only [hres]
  · unfold rename
    rw [hsplit]
    simp only [hres]
  · unfold rename
    rw [hsplitQ, hsplit]
    simp only [hresQ, hres]

/-- Witness for C7 on the trailing-slash path "a/b/" (raw components
["a", "b", ""]) and the well-formed path "c/d". -/
theorem trailing_slash_rejected_with_invalid_argument_witness :
    create (fun p => .ok p.length) (fun _ => .ok ()) ["a", "b", ""] (.File 0o644) =
      (.error .InvalidArgument, [.resolveCall ["a", "b"]]) ∧
    create_file (fun p => .ok p.length) (fun _ => .ok ()) ["a", "b", ""] 2 0o644 =
      (.error .InvalidArgument, [.resolveCall ["a", "b"]]) ∧
    remove_dir (fun p => .ok p.length) (fun _ => .ok ()) ["a", "b", ""] =
      (.error .InvalidArgument, [.resolveCall ["a", "b"]]) ∧
    remove_file (fun p => .ok p.length) (fun _ => .ok ()) ["a", "b", ""] =
      (.error .InvalidArgument, [.resolveCall ["a", "b"]]) ∧
    remove_all (fun p => .ok p.length) (fun _ => .ok ()) ["a", "b", ""] =
      (.error .InvalidArgument, [.resolveCall ["a", "b"]]) ∧
    rename (fun p => .ok p.length) (fun _ => .ok ()) ["a", "b", ""] ["c", "d"] 0 =
      (.error .InvalidArgument, [.resolveCall ["a", "b"]]) ∧
    rename (fun p => .ok p.length) (fun _ => .ok ()) ["c", "d"] ["a", "b", ""] 0 =
      (.error .InvalidArgument, [.resolveCall ["c"], .resolveCall ["a", "b"]]) ∧
    ([Event.resolveCall ["a", "b"], Event.resolveCall ["c"]].all Event.isResolveCall) = true :=
  trailing_slash_rejected_with_invalid_argument (fun p => .ok p.length) (fun _ => .ok ())
    ["a", "b", ""] ["a", "b"] ["c", "d"] ["c"] "d" 2 1 (.File 0o644) 2 0o644 0
    (by rfl) (by rfl) (by rfl) (by rfl)

end Claims3

section Claims5

open PathrsError PathrsRoot PathrsOps PathrsMkdirAll PathrsKernel PathrsEmulated

/-- Helper: on a successful run, the creation loop of `mkdir_all` returns
the handle of the deepest created directory (the starting handle extended
by every part, in order) and its trace is one `mkdirat` plus one nofollow
re-resolution per part. -/
theorem mkdirAllLoop_ok_shape (mode : Nat) (parts : List String) :
    ∀ (fs : FsTree) (cur : List String) (tr : List Syscall) (out : MkdirAllOutcome)
      (h2 : List String),
      mkdirAllLoop mode fs cur parts tr = out →
      out.result = .ok h2 →
      h2 = cur ++ parts ∧ out.trace = tr ++ expectedTrace mode cur parts := by
  induction parts with
  | nil =>
    intro fs cur tr out h2 hout hok
    rw [mkdirAllLoop] at hout
    subst hout
    simp only [MkdirAllOutcome.mk.injEq] at hok ⊢
    simp at hok
    subst hok
    simp [expectedTrace]
  | cons part rest ih =>
    intro fs cur tr out h2 hout hok
    rw [mkdirAllLoop] at hout
    split at hout
    · subst hout
      simp at hok
    · split at hout
      · obtain ⟨hh, htr⟩ :=
          ih _ (cur ++ [part])
            (tr ++ [.mkdirat cur part mode, .resolveNofollow cur part]) out h2 hout hok
        constructor
        · rw [hh]; simp
        · rw [htr, expectedTrace]; simp
      · subst hout
        simp at hok
      · subst hout
        simp at hok

/-- Helper: a component on which the filter of src/root.rs line 900 is
false (empty or ".") does not change the filtered remaining parts. -/
theorem remainingParts_skip (xs ys : List String) (c : String)
    (hc : (c != "" && c != ".") = false) :
    remainingParts (xs ++ c :: ys) = remainingParts (xs ++ ys) := by
  simp only [remainingParts, List.filter_append, List.filter_cons, hc]
  simp

/-- Helper: the post-resolution phase of `mkdir_all` depends on the
remaining components only through the filtered parts. -/
theorem mkdirAllAfterResolve_congr (fs : FsTree) (handle rem rem2 : List String) (mode : Nat)
    (h : remainingParts rem = remainingParts rem2) :
    mkdirAllAfterResolve fs handle rem mode = mkdirAllAfterResolve fs handle rem2 mode := by
  unfold mkdirAllAfterResolve
  rw [h]

/-- C5: after partial resolution, `mkdir_all` processes the remaining
components so that every empty and every "." component is skipped as a
no-op; a ".." among the remaining parts makes the whole operation fail
with an `OsError` carrying `ENOENT` before any `mkdirat` is issued (empty
trace, tree unchanged); and on success each remaining part has been
created with `mkdirat` and then re-resolved with nofollow, the returned
handle referring to the deepest created directory. -/
theorem mkdir_all_remaining_components_behavior
    (fs : FsTree) (handle rem xs ys : List String) (mode : Nat)
    (children : List (String × FsTree)) (h2 : List String) :
    (mkdirAllAfterResolve fs handle (xs ++ "" :: ys) mode =
        mkdirAllAfterResolve fs handle (xs ++ ys) mode ∧
      mkdirAllAfterResolve fs handle (xs ++ "." :: ys) mode =
        mkdirAllAfterResolve fs handle (xs ++ ys) mode) ∧
    (lookupPath fs handle = some (.dir children) →
      (remainingParts rem).any (fun part => part == "..") = true →
      mkdirAllAfterResolve fs handle rem mode =
        ⟨.error (.OsError (some PathrsMkdirAll.eNOENT)), fs, []⟩) ∧
    ((mkdirAllAfterResolve fs handle rem mode).result = .ok h2 →
      h2 = handle ++ remainingParts rem ∧
      (mkdirAllAfterResolve fs handle rem mode).trace =
        expectedTrace mode handle (remainingParts rem)) := by
  refine ⟨⟨?_, ?_⟩, ?_, ?_⟩
  · exact mkdirAllAfterResolve_congr fs handle _ _ mode (remainingParts_skip xs ys "" (by decide))
  · exact mkdirAllAfterResolve_congr fs handle _ _ mode (remainingParts_skip xs ys "." (by decide))
  · intro hdir hdd
    unfold mkdirAllAfterResolve
    rw [hdir]
    simp only [hdd, if_true]
  · intro hok
    unfold mkdirAllAfterResolve at hok ⊢
    cases hlk : lookupPath fs handle with
    | none => simp [hlk] at hok
    | some t =>
      cases t with
      | file => simp [hlk] at hok
      | symlink tgt => simp [hlk] at hok
      | dir cs2 =>
        rw [hlk] at hok
        dsimp only at hok ⊢
        by_cases hdd : (remainingParts rem).any (fun part => part == "..") = true
        · rw [if_pos hdd] at hok
          simp at hok
        · rw [if_neg hdd] at hok ⊢
          obtain ⟨hh, htr⟩ :=
            mkdirAllLoop_ok_shape mode (remainingParts rem) fs handle [] _ h2 rfl hok
          exact ⟨hh, by simpa using htr⟩

/-- Witness for C5 on an empty root directory: skipping a "" component,
failing on a ".." component with `ENOENT` and an empty trace, and a
successful two-component creation with its full trace. -/
theorem mkdir_all_remaining_components_behavior_witness :
    mkdirAllAfterResolve (.dir []) [] (["x"] ++ "" :: ["y"]) 0o755 =
      mkdirAllAfterResolve (.dir []) [] (["x"] ++ ["y"]) 0o755 ∧
    mkdirAllAfterResolve (.dir []) [] [".."] 0o755 =
      ⟨.error (.OsError (some PathrsMkdirAll.eNOENT)), .dir [], []⟩ ∧
    (["a", "b"] = ([] : List String) ++ remainingParts ["a", "", ".", "b"] ∧
      (mkdirAllAfterResolve (.dir []) [] ["a", "", ".", "b"] 0o755).trace =
        expectedTrace 0o755 [] (remainingParts ["a", "", ".", "b"])) :=
  ⟨(mkdir_all_remaining_components_behavior (.dir []) [] [".."] ["x"] ["y"] 0o755 []
      ["a", "b"]).1.1,
   (mkdir_all_remaining_components_behavior (.dir []) [] [".."] ["x"] ["y"] 0o755 []
      ["a", "b"]).2.1 (by rfl) (by rfl),
   (mkdir_all_remaining_components_behavior (.dir []) [] ["a", "", ".", "b"] ["x"] ["y"]
      0o755 [] ["a", "b"]).2.2 (by rfl)⟩

end Claims5

section Claims1

open PathrsError PathrsRoot PathrsOps PathrsMkdirAll PathrsKernel PathrsEmulated

/-- Helper: the containment check trivially accepts the root handle
itself. -/
theorem checkContained_self (K : Kernel) (root : Nat) :
    checkContained K root root = true := by
  unfold checkContained
  induction K.canon root with
  | nil => rfl
  | cons a t ih => simp [List.isPrefixOf, ih]

/-- Helper: the walk loop maintains the containment invariant. Every
assignment of the current directory goes through the containment re-check
(or is the root itself), and both successful exits return either the
current directory or a freshly checked handle, so a successful walk from
any contained starting directory ends contained — for every adversarial
kernel behavior. -/
theorem resolveLoop_contained (K : Kernel) (noSymlinks : Bool) (root : Nat)
    (nofollow : Bool) :
    ∀ (fuel cur : Nat) (remaining : List String) (stack : List Frame)
      (nlinks nbytes h : Nat),
      checkContained K root cur = true →
      resolveLoop K noSymlinks root nofollow fuel cur remaining stack nlinks nbytes = .ok h →
      checkContained K root h = true := by
  intro fuel
  induction fuel with
  | zero =>
    intro cur rem st nl nb h hc hr
    simp [resolveLoop] at hr
  | succ n ih =>
    intro cur rem st nl nb h hc hr
    simp only [resolveLoop] at hr
    repeat' split at hr
    all_goals first
      | exact Except.noConfusion hr
      | (injection hr with hh; subst hh; assumption)
      | exact ih _ _ _ _ _ _ hc hr
      | exact ih _ _ _ _ _ _ ‹_› hr
      | exact ih _ _ _ _ _ _ (checkContained_self K root) hr

/-- C1: for every root, path, and adversarial kernel behavior, a
successful `resolve` returns a handle whose kernel-canonical path begins
with the kernel-canonical path of the root at the moment of resolution —
the returned handle is contained in the root directory tree. -/
theorem resolve_handle_contained_in_root (K : Kernel) (noSymlinks : Bool) (root : Nat)
    (path : List String) (nofollow : Bool) (h : Nat)
    (hres : emulatedResolve K noSymlinks root path nofollow = .ok h) :
    (K.canon root).isPrefixOf (K.canon h) = true := by
  unfold emulatedResolve at hres
  have hloop :
      resolveLoop K noSymlinks root nofollow
        (maxSymlinkBytes + maxSymlinkTraversals + 2 * path.length + 2)
        root path [] 0 0 = .ok h := by
    split at hres
    · exact Except.noConfusion hres
    · exact hres
  exact resolveLoop_contained K noSymlinks root nofollow _ root path [] 0 0 h
    (checkContained_self K root) hloop

/-- A concrete kernel with a root handle 0 (canonical path ["r"]) holding
one regular file "a" as handle 1 (canonical path ["r", "a"]). -/
def witnessKernel : Kernel :=
  { lookup := fun d c => if d == 0 && c == "a" then some 1 else none
    kindOf := fun n => if n == 1 then .other else .directory
    readlink := fun _ => none
    parentOf := fun _ => none
    canon := fun n => if n == 1 then ["r", "a"] else ["r"] }

/-- Witness for C1: resolving "a" in the concrete kernel succeeds with
handle 1, whose canonical path extends the canonical path of the root. -/
theorem resolve_handle_contained_in_root_witness :
    (witnessKernel.canon 0).isPrefixOf (witnessKernel.canon 1) = true :=
  resolve_handle_contained_in_root witnessKernel false 0 ["a"] false 1 (by rfl)

end Claims1
